import Mathlib

/-!
Verification of the bfl-api client core: the `waitForResult` polling loop,
the request facade configuration of `getResult` / `_makeRequest`, API-key
redaction, the constructor baseUrl check (all from `src/api.ts`), and the
SSRF-hardened remote-origin validator (modelled from the specification,
whose implementation file is absent from the sources; only its tests are
present).

The poller is embedded as a pure function over a *trace*: the list of
outcomes that successive status fetches would produce.  Wall-clock time is
modelled in whole seconds: each sleep adds its duration to `elapsed`,
fetches themselves take no model time.
-/

/-- Substring test, mirroring JavaScript `String.prototype.includes`. -/
def strContains (hay needle : String) : Bool :=
  (List.range (hay.data.length + 1)).any fun i => needle.data.isPrefixOf (hay.data.drop i)

/-- Starts-with on strings, via the underlying character lists. -/
def strStartsWith (s pre : String) : Bool :=
  pre.data.isPrefixOf s.data

/-- ASCII lower-casing of one character. -/
def lowerChar (c : Char) : Char :=
  if 'A' ≤ c ∧ c ≤ 'Z' then Char.ofNat (c.toNat + 32) else c

/-- ASCII lower-casing of a string, via the underlying character list. -/
def strToLower (s : String) : String :=
  String.mk (s.data.map lowerChar)

/-- Drop the first `n` characters of a string. -/
def strDrop (s : String) (n : Nat) : String :=
  String.mk (s.data.drop n)

/-- Split a character list on `.` separators. -/
def splitOnDot (l : List Char) (acc : List Char) : List String :=
  match l with
  | [] => [String.mk acc.reverse]
  | c :: cs =>
    if c = '.' then String.mk acc.reverse :: splitOnDot cs []
    else splitOnDot cs (c :: acc)

/-- JavaScript `x || dflt` on an optional string field: `null`/`undefined`
and the empty string are falsy. -/
def jsOrDefault (s : Option String) (dflt : String) : String :=
  match s with
  | some v => if v = "" then dflt else v
  | none => dflt

/-- The slice of a remote status response that `waitForResult` inspects:
`status`, `result.sample` and `result.error`. -/
structure TaskResult where
  status : String
  sample : Option String
  errorText : Option String
deriving Repr, DecidableEq

/-- What one status fetch (`getResult`) does: return a response, or throw
an error with the given message. -/
inductive FetchOutcome where
  | success (r : TaskResult)
  | failure (msg : String)
deriving Repr, DecidableEq

/-- Transient-error test of `waitForResult` (src/api.ts lines 785-789):
the message includes 503, 502, ECONNRESET or ETIMEDOUT. -/
def isTransientMsg (msg : String) : Bool :=
  strContains msg "503" || strContains msg "502" ||
    strContains msg "ECONNRESET" || strContains msg "ETIMEDOUT"

/-- Moderation-error test of `waitForResult` (src/api.ts lines 792-793):
the message includes "moderated" or "Content Moderated". -/
def isModerationMsg (msg : String) : Bool :=
  strContains msg "moderated" || strContains msg "Content Moderated"

/-- How the body of the polling loop reacts to one fetch outcome
(src/api.ts lines 757-781): `Ready` returns; `Error` and
`Content Moderated` throw (the thrown message then reaches the same
`catch` block as fetch failures); every other status keeps polling. -/
inductive FetchStep where
  | ready (r : TaskResult)
  | keepPolling
  | caught (msg : String)
deriving Repr, DecidableEq

/-- Classify one fetch outcome as the loop body does. -/
def classifyFetch : FetchOutcome → FetchStep
  | .failure msg => .caught msg
  | .success r =>
    if r.status = "Ready" then .ready r
    else if r.status = "Error" then
      .caught ("Generation failed: " ++ jsOrDefault r.errorText "Unknown error")
    else if r.status = "Content Moderated" then
      .caught "Content was moderated. Please revise your prompt."
    else .keepPolling

/-- Terminal outcome of a `waitForResult` run. -/
inductive PollOutcome where
  | ready (r : TaskResult)
  | timedOut (timeoutSeconds : Nat)
  | fatal (msg : String)
  | outOfTrace
deriving Repr, DecidableEq

/-- Observable summary of a `waitForResult` run: its outcome, how many
status fetches it performed, how many poll-interval sleeps it did, and
the list of backoff sleep durations (seconds) in order. -/
structure PollResult where
  outcome : PollOutcome
  fetches : Nat
  pollSleeps : Nat
  backoffs : List Nat
deriving Repr, DecidableEq

/-- The `waitForResult` loop of src/api.ts lines 749-816, run against a
trace of fetch outcomes.  Each iteration: timeout check (`elapsed >
timeout` throws), one fetch, then either return `Ready`, sleep
`pollInterval` and continue with the retry counter reset, or run the
`catch` logic: moderation messages throw at once; transient messages with
`retries < maxRetries` bump the counter, sleep `2 ^ retries` seconds and
continue at the timeout check; everything else throws.  An exhausted
trace yields the marker `outOfTrace`. -/
def pollLoop (timeout pollInterval maxRetries : Nat) :
    List FetchOutcome → Nat → Nat → PollResult
  | trace, elapsed, retries =>
    if timeout < elapsed then ⟨.timedOut timeout, 0, 0, []⟩
    else
      match trace with
      | [] => ⟨.outOfTrace, 0, 0, []⟩
      | o :: rest =>
        match classifyFetch o with
        | .ready r => ⟨.ready r, 1, 0, []⟩
        | .keepPolling =>
          let res := pollLoop timeout pollInterval maxRetries rest (elapsed + pollInterval) 0
          ⟨res.outcome, res.fetches + 1, res.pollSleeps + 1, res.backoffs⟩
        | .caught msg =>
          if isModerationMsg msg then ⟨.fatal msg, 1, 0, []⟩
          else if isTransientMsg msg ∧ retries < maxRetries then
            let b := 2 ^ (retries + 1)
            let res := pollLoop timeout pollInterval maxRetries rest (elapsed + b) (retries + 1)
            ⟨res.outcome, res.fetches + 1, res.pollSleeps, b :: res.backoffs⟩
          else ⟨.fatal msg, 1, 0, []⟩

/-- Redaction of the API key for logging (src/api.ts `_redactApiKey`):
keys shorter than 8 characters (or empty) become `[REDACTED]`; otherwise
`xxx...` followed by the last four characters (`apiKey.slice(-4)`). -/
def redactApiKey (apiKey : String) : String :=
  if apiKey.length < 8 then "[REDACTED]"
  else "xxx..." ++ String.mk (apiKey.data.drop (apiKey.length - 4))

/-- The headers `_makeRequest` sends (src/api.ts lines 176-180). -/
structure RequestHeaders where
  accept : String
  xKey : String
  contentType : Option String
deriving Repr, DecidableEq

/-- Headers actually used by `_makeRequest` for the HTTP call. -/
def makeRequestHeaders (apiKey : String) : RequestHeaders :=
  ⟨"application/json", apiKey, some "application/json"⟩

/-- Headers written to the debug log by `_makeRequest` (lines 183-186):
the real headers with the `x-key` entry replaced by its redaction. -/
def sanitizedRequestHeaders (apiKey : String) : RequestHeaders :=
  { makeRequestHeaders apiKey with xKey := redactApiKey apiKey }

/-- Configuration of one outgoing GET request: target URL, headers, and
the optional axios `timeout` / `maxRedirects` settings. -/
structure AxiosConfig where
  url : String
  headers : RequestHeaders
  timeoutMs : Option Nat
  maxRedirects : Option Nat
deriving Repr, DecidableEq

/-- Request configuration built by `_makeRequest` (src/api.ts lines
175-198): full headers, a 30000 ms timeout and a 5-redirect bound. -/
def makeRequestConfig (baseUrl endpoint apiKey : String) : AxiosConfig :=
  ⟨baseUrl ++ endpoint, makeRequestHeaders apiKey, some 30000, some 5⟩

/-- Request configuration used by `getResult` (src/api.ts lines 689-701):
with a `pollingUrl` it calls axios directly with only `accept` and
`x-key` headers and no timeout or redirect settings; otherwise it goes
through `_makeRequest` with the constructed status endpoint. -/
def getResultConfig (baseUrl apiKey taskId : String) :
    Option String → AxiosConfig
  | some pollingUrl => ⟨pollingUrl, ⟨"application/json", apiKey, none⟩, none, none⟩
  | none => makeRequestConfig baseUrl ("/v1/get_result?id=" ++ taskId) apiKey

/-- Default API base URL (src/config.js). -/
def BASE_URL : String := "https://api.bfl.ai"

/-- The constructor baseUrl validation (src/api.ts lines 83-85): a truthy
`baseUrl` that does not start with `https://` throws; an empty string is
falsy in JavaScript and skips the check. -/
def validateConstructorBaseUrl (baseUrl : String) : Except String Unit :=
  if baseUrl ≠ "" ∧ ¬ strStartsWith baseUrl "https://" then
    .error "API base URL must use HTTPS protocol for security"
  else .ok ()

/-- Index of the first occurrence of `needle` in `hay`, if any. -/
def findSubIdx (hay needle : List Char) : Option Nat :=
  (List.range (hay.length + 1)).find? fun i => needle.isPrefixOf (hay.drop i)

/-- Modelled from the spec: URL parsing for the missing `validateImageUrl`
implementation (only its tests survive in the sources).  Splits a URL
into scheme and hostname; a bracketed host has its brackets unwrapped
(spec 4.2 step 3); no scheme separator or an empty host is malformed. -/
def parseUrl (url : String) : Option (String × String) :=
  match findSubIdx url.data ("://".data) with
  | none => none
  | some i =>
    let scheme := String.mk (url.data.take i)
    let rest := url.data.drop (i + 3)
    match rest with
    | '[' :: tl =>
      if tl.contains ']' then
        let host := tl.takeWhile (· ≠ ']')
        if host.isEmpty then none else some (scheme, String.mk host)
      else none
    | _ =>
      let host := rest.takeWhile fun c => c ≠ '/' && c ≠ ':' && c ≠ '?' && c ≠ '#'
      if host.isEmpty then none else some (scheme, String.mk host)

/-- Modelled from the spec: one decimal IPv4 octet (1-3 digits, ≤ 255). -/
def parseOctet (s : String) : Option Nat :=
  if s.data ≠ [] ∧ s.data.length ≤ 3 ∧ s.data.all Char.isDigit then
    let n := s.data.foldl (fun acc c => acc * 10 + (c.toNat - 48)) 0
    if n ≤ 255 then some n else none
  else none

/-- Modelled from the spec: parse a dotted-quad IPv4 literal. -/
def parseIPv4 (s : String) : Option (Nat × Nat × Nat × Nat) :=
  match splitOnDot s.data [] with
  | [a, b, c, d] =>
    match parseOctet a, parseOctet b, parseOctet c, parseOctet d with
    | some x, some y, some z, some w => some (x, y, z, w)
    | _, _, _, _ => none
  | _ => none

/-- Classification of a literal IP address for the validator. -/
inductive IpClass where
  | loopback
  | priv
  | pub
deriving Repr, DecidableEq

/-- Modelled from the spec: IPv4 range classification (4.2 step 5) —
loopback 127/8; private 10/8, 172.16/12, 192.168/16, link-local
169.254/16; everything else public. -/
def classifyIPv4 : Nat × Nat × Nat × Nat → IpClass
  | (a, b, _, _) =>
    if a = 127 then .loopback
    else if a = 10 then .priv
    else if a = 172 ∧ 16 ≤ b ∧ b ≤ 31 then .priv
    else if a = 192 ∧ b = 168 then .priv
    else if a = 169 ∧ b = 254 then .priv
    else .pub

/-- Value of one lowercase hexadecimal digit. -/
def hexVal (c : Char) : Option Nat :=
  if c.isDigit then some (c.toNat - 48)
  else if 'a' ≤ c ∧ c ≤ 'f' then some (c.toNat - 87)
  else none

/-- Parse a nonempty lowercase hexadecimal group. -/
def parseHexGroup (l : List Char) : Option Nat :=
  if l.isEmpty then none
  else
    l.foldl
      (fun acc c =>
        match acc, hexVal c with
        | some n, some v => some (n * 16 + v)
        | _, _ => none)
      (some 0)

/-- Modelled from the spec: IPv6 classification (4.2 step 5) on an
already-lowercased literal — loopback `::1`; link-local `fe80::/10` and
unique-local `fc00::/7` by the leading hextet; else public. -/
def classifyIPv6 (lower : String) : IpClass :=
  if lower = "::1" then .loopback
  else
    match parseHexGroup (lower.data.takeWhile (· ≠ ':')) with
    | some h =>
      if 0xfe80 ≤ h ∧ h ≤ 0xfebf then .priv
      else if 0xfc00 ≤ h ∧ h ≤ 0xfdff then .priv
      else .pub
    | none => .pub

/-- Modelled from the spec: literal-IP fast path (4.2 step 5).  The
case-insensitive IPv4-mapped-IPv6 form `::ffff:a.b.c.d` is unwrapped to
its embedded IPv4 address *before* classification; otherwise the host is
classified as an IPv4 literal, as an IPv6 literal when it contains a
colon, and `none` means the host is not a literal IP at all. -/
def classifyHostLiteral (host : String) : Option IpClass :=
  let lower := strToLower host
  if strStartsWith lower "::ffff:" then
    match parseIPv4 (strDrop lower 7) with
    | some ip => some (classifyIPv4 ip)
    | none => some (classifyIPv6 lower)
  else
    match parseIPv4 host with
    | some ip => some (classifyIPv4 ip)
    | none => if host.data.contains ':' then some (classifyIPv6 lower) else none

/-- Modelled from the spec: hostname blocklist (4.2 step 4) — literal
`localhost` and cloud metadata hostnames. -/
def isBlockedHostname (host : String) : Bool :=
  host = "localhost" || strContains host "metadata.google.internal"

/-- Is a (resolved or literal) address private, loopback, link-local,
unique-local or metadata? -/
def ipIsPrivateOrLoopback (addr : String) : Bool :=
  match classifyHostLiteral addr with
  | some .loopback => true
  | some .priv => true
  | _ => false

/-- Result of the injected DNS resolver for a hostname. -/
inductive ResolverResult where
  | ip (addr : String)
  | errNotFound
  | errOther
deriving Repr, DecidableEq

/-- Rejection taxonomy of the Origin Validator (spec 3). -/
inductive RejectReason where
  | malformedUrl
  | notHttps
  | hostnameBlocklisted
  | literalLoopback
  | literalPrivate
  | resolvesToPrivate
  | resolutionFailedNotFound
  | resolutionFailedOther
deriving Repr, DecidableEq

/-- Verdict of the Origin Validator. -/
inductive UrlVerdict where
  | allowed (url : String)
  | rejected (reason : RejectReason)
deriving Repr, DecidableEq

/-- Modelled from the spec: the missing `validateImageUrl`
(`validateRemoteOrigin` in spec 4.2), with the DNS resolver injected.
Steps in order: parse; scheme must be https; hostname blocklist; literal
IP classification (with IPv4-mapped-IPv6 unwrapping first); DNS
resolution for non-literal hostnames with the same classification
applied to the resolved address. -/
def validateImageUrl (resolver : String → ResolverResult) (url : String) : UrlVerdict :=
  match parseUrl url with
  | none => .rejected .malformedUrl
  | some (scheme, host) =>
    if scheme ≠ "https" then .rejected .notHttps
    else if isBlockedHostname host then .rejected .hostnameBlocklisted
    else
      match classifyHostLiteral host with
      | some .loopback => .rejected .literalLoopback
      | some .priv => .rejected .literalPrivate
      | some .pub => .allowed url
      | none =>
        match resolver host with
        | .ip addr =>
          if ipIsPrivateOrLoopback addr then .rejected .resolvesToPrivate
          else .allowed url
        | .errNotFound => .rejected .resolutionFailedNotFound
        | .errOther => .rejected .resolutionFailedOther
section Helpers

theorem pollLoop_eq_timedOut (t p m : Nat) (trace : List FetchOutcome)
    (elapsed retries : Nat) (h : t < elapsed) :
    pollLoop t p m trace elapsed retries = ⟨.timedOut t, 0, 0, []⟩ := by
  unfold pollLoop
  simp [h]

theorem pollLoop_eq_nil (t p m : Nat) (elapsed retries : Nat) (h : ¬ t < elapsed) :
    pollLoop t p m [] elapsed retries = ⟨.outOfTrace, 0, 0, []⟩ := by
  unfold pollLoop
  simp [h]

theorem pollLoop_eq_ready (t p m : Nat) (o : FetchOutcome) (rest : List FetchOutcome)
    (elapsed retries : Nat) (r : TaskResult)
    (h : ¬ t < elapsed) (hc : classifyFetch o = .ready r) :
    pollLoop t p m (o :: rest) elapsed retries = ⟨.ready r, 1, 0, []⟩ := by
  unfold pollLoop
  simp [h, hc]

theorem pollLoop_eq_keepPolling (t p m : Nat) (o : FetchOutcome) (rest : List FetchOutcome)
    (elapsed retries : Nat)
    (h : ¬ t < elapsed) (hc : classifyFetch o = .keepPolling) :
    pollLoop t p m (o :: rest) elapsed retries =
      { pollLoop t p m rest (elapsed + p) 0 with
        fetches := (pollLoop t p m rest (elapsed + p) 0).fetches + 1,
        pollSleeps := (pollLoop t p m rest (elapsed + p) 0).pollSleeps + 1 } := by
  conv_lhs => unfold pollLoop
  simp [h, hc]

theorem pollLoop_eq_moderation (t p m : Nat) (o : FetchOutcome) (rest : List FetchOutcome)
    (elapsed retries : Nat) (msg : String)
    (h : ¬ t < elapsed) (hc : classifyFetch o = .caught msg)
    (hm : isModerationMsg msg = true) :
    pollLoop t p m (o :: rest) elapsed retries = ⟨.fatal msg, 1, 0, []⟩ := by
  conv_lhs => unfold pollLoop
  simp [h, hc, hm]

theorem pollLoop_eq_retry (t p m : Nat) (o : FetchOutcome) (rest : List FetchOutcome)
    (elapsed retries : Nat) (msg : String)
    (h : ¬ t < elapsed) (hc : classifyFetch o = .caught msg)
    (hm : isModerationMsg msg = false) (ht : isTransientMsg msg = true)
    (hr : retries < m) :
    pollLoop t p m (o :: rest) elapsed retries =
      { pollLoop t p m rest (elapsed + 2 ^ (retries + 1)) (retries + 1) with
        fetches := (pollLoop t p m rest (elapsed + 2 ^ (retries + 1)) (retries + 1)).fetches + 1,
        backoffs := 2 ^ (retries + 1) ::
          (pollLoop t p m rest (elapsed + 2 ^ (retries + 1)) (retries + 1)).backoffs } := by
  conv_lhs => unfold pollLoop
  simp [h, hc, hm, ht, hr]

theorem pollLoop_eq_fatal (t p m : Nat) (o : FetchOutcome) (rest : List FetchOutcome)
    (elapsed retries : Nat) (msg : String)
    (h : ¬ t < elapsed) (hc : classifyFetch o = .caught msg)
    (hm : isModerationMsg msg = false)
    (hf : isTransientMsg msg = false ∨ ¬ retries < m) :
    pollLoop t p m (o :: rest) elapsed retries = ⟨.fatal msg, 1, 0, []⟩ := by
  conv_lhs => unfold pollLoop
  rcases hf with hf | hf
  · simp [h, hc, hm, hf]
  · simp [h, hc, hm, hf]

end Helpers

theorem classifyFetch_ready (r : TaskResult) (h : r.status = "Ready") :
    classifyFetch (.success r) = .ready r := by
  simp [classifyFetch, h]

theorem classifyFetch_error (r : TaskResult) (h : r.status = "Error") :
    classifyFetch (.success r) =
      .caught ("Generation failed: " ++ jsOrDefault r.errorText "Unknown error") := by
  simp [classifyFetch, h]

theorem classifyFetch_contentModerated (r : TaskResult) (h : r.status = "Content Moderated") :
    classifyFetch (.success r) =
      .caught "Content was moderated. Please revise your prompt." := by
  simp [classifyFetch, h]

theorem classifyFetch_keepWaiting (r : TaskResult)
    (h : r.status = "Pending" ∨ r.status = "Request Moderated") :
    classifyFetch (.success r) = .keepPolling := by
  rcases h with h | h <;> simp [classifyFetch, h]

theorem isModeration_contentModerated :
    isModerationMsg "Content was moderated. Please revise your prompt." = true := by
  decide

/-- Claim C7: for every fetch failure whose error text contains "moderated"
or "Content Moderated", `waitForResult` fails immediately with that error
and performs exactly one fetch, with no retry, regardless of `maxRetries`
and even when the text would also classify as transient. -/
theorem waitForResult_moderation_error_never_retried
    (t p m elapsed retries : Nat) (msg : String) (rest : List FetchOutcome)
    (h : elapsed ≤ t) (hm : isModerationMsg msg = true) :
    pollLoop t p m (.failure msg :: rest) elapsed retries = ⟨.fatal msg, 1, 0, []⟩ :=
  pollLoop_eq_moderation t p m _ rest elapsed retries msg (Nat.not_lt.2 h) rfl hm

/-- Witness for C7 at a concrete input whose message is both
moderation-flavored and transient-flavored: one fetch, no retries. -/
theorem waitForResult_moderation_error_never_retried_witness :
    isTransientMsg "503 Content Moderated ETIMEDOUT" = true ∧
    pollLoop 300 2 5 [.failure "503 Content Moderated ETIMEDOUT",
        .success ⟨"Ready", some "https://img", none⟩] 0 0 =
      ⟨.fatal "503 Content Moderated ETIMEDOUT", 1, 0, []⟩ :=
  ⟨by decide,
   waitForResult_moderation_error_never_retried 300 2 5 0 0 _ _ (by decide) (by decide)⟩

/-- Claim C6: the elapsed-versus-timeout comparison runs before every poll
attempt, including attempts reached through the backoff-retry path; the
loop fails with Timeout exactly when elapsed time strictly exceeds
`timeoutSeconds` (with zero further fetches) and never before (at or
under the bound the next fetch always happens); and after an attempt that
fails transiently right at the timeout boundary, the loop times out
instead of reporting the now-ready task. -/
theorem waitForResult_timeout_check (t p m : Nat) :
    (∀ (trace : List FetchOutcome) (elapsed retries : Nat), t < elapsed →
        pollLoop t p m trace elapsed retries = ⟨.timedOut t, 0, 0, []⟩)
    ∧ (∀ (o : FetchOutcome) (rest : List FetchOutcome) (elapsed retries : Nat),
        elapsed ≤ t → 1 ≤ (pollLoop t p m (o :: rest) elapsed retries).fetches)
    ∧ (∀ (msg : String) (rest : List FetchOutcome) (retries : Nat),
        isTransientMsg msg = true → isModerationMsg msg = false → retries < m →
        pollLoop t p m (.failure msg :: rest) t retries =
          ⟨.timedOut t, 1, 0, [2 ^ (retries + 1)]⟩) := by
  refine ⟨fun trace elapsed retries h => pollLoop_eq_timedOut t p m trace elapsed retries h,
    ?_, ?_⟩
  · intro o rest elapsed retries h
    have h' : ¬ t < elapsed := Nat.not_lt.2 h
    cases hc : classifyFetch o with
    | ready r => rw [pollLoop_eq_ready t p m o rest elapsed retries r h' hc]
    | keepPolling => rw [pollLoop_eq_keepPolling t p m o rest elapsed retries h' hc]; simp
    | caught msg =>
      cases hm : isModerationMsg msg with
      | true => rw [pollLoop_eq_moderation t p m o rest elapsed retries msg h' hc hm]
      | false =>
        by_cases hr : isTransientMsg msg = true ∧ retries < m
        · rw [pollLoop_eq_retry t p m o rest elapsed retries msg h' hc hm hr.1 hr.2]
          simp
        · rcases not_and_or.mp hr with hf | hf
          · rw [pollLoop_eq_fatal t p m o rest elapsed retries msg h' hc hm
              (Or.inl (Bool.not_eq_true _ ▸ hf))]
          · rw [pollLoop_eq_fatal t p m o rest elapsed retries msg h' hc hm (Or.inr hf)]
  · intro msg rest retries ht hm hr
    rw [pollLoop_eq_retry t p m (.failure msg) rest t retries msg (Nat.lt_irrefl t) rfl hm ht hr,
      pollLoop_eq_timedOut t p m rest (t + 2 ^ (retries + 1)) (retries + 1)
        (Nat.lt_add_of_pos_right (by positivity))]

/-- Witness for C6 at timeout 10s, poll interval 2s, maxRetries 3: an
elapsed time of 11s times out with no fetch; at 10s (the bound itself) a
fetch still happens; a transient failure exactly at the boundary leads to
Timeout even though the next response would be Ready. -/
theorem waitForResult_timeout_check_witness :
    pollLoop 10 2 3 [.success ⟨"Ready", some "u", none⟩] 11 0 = ⟨.timedOut 10, 0, 0, []⟩ ∧
    1 ≤ (pollLoop 10 2 3 [.success ⟨"Ready", some "u", none⟩] 10 0).fetches ∧
    pollLoop 10 2 3 [.failure "ECONNRESET", .success ⟨"Ready", some "u", none⟩] 10 0 =
      ⟨.timedOut 10, 1, 0, [2]⟩ :=
  ⟨(waitForResult_timeout_check 10 2 3).1 _ 11 0 (by decide),
   (waitForResult_timeout_check 10 2 3).2.1 _ _ 10 0 (by decide),
   by
     have h := (waitForResult_timeout_check 10 2 3).2.2 "ECONNRESET"
       [.success ⟨"Ready", some "u", none⟩] 0 (by decide) (by decide) (by decide)
     simpa using h⟩

/-- Counterexample to claim C1 as stated: a successful status fetch with
status `Error` whose failure-reason text is `"503"` does not terminate
polling — the thrown message `Generation failed: 503` matches the
transient-error test, so the loop backs off and fetches again, reaching
a Ready result after 2 fetches. -/
theorem waitForResult_error_status_retried_counterexample :
    pollLoop 300 2 3
        [.success ⟨"Error", none, some "503"⟩,
         .success ⟨"Ready", some "https://img", none⟩] 0 0 =
      ⟨.ready ⟨"Ready", some "https://img", none⟩, 2, 0, [2]⟩ := by decide

/-- Claim C1 (amended): with time remaining, a status of `Content
Moderated` terminates the loop immediately — exactly one fetch, no
retry, regardless of `maxRetries`; a status of `Error` with failure
reason text whose thrown form contains no transient marker
(502/503/ECONNRESET/ETIMEDOUT), or contains a moderation marker,
terminates immediately the same way with `Generation failed:` plus the
failure reason (empty or missing reason becomes `Unknown error`). -/
theorem waitForResult_terminal_status (t p m elapsed retries : Nat)
    (rest : List FetchOutcome) (h : elapsed ≤ t) :
    (∀ r : TaskResult, r.status = "Content Moderated" →
        pollLoop t p m (.success r :: rest) elapsed retries =
          ⟨.fatal "Content was moderated. Please revise your prompt.", 1, 0, []⟩)
    ∧ (∀ r : TaskResult, r.status = "Error" →
        (isTransientMsg ("Generation failed: " ++ jsOrDefault r.errorText "Unknown error") = false
          ∨ isModerationMsg ("Generation failed: " ++ jsOrDefault r.errorText "Unknown error") = true) →
        pollLoop t p m (.success r :: rest) elapsed retries =
          ⟨.fatal ("Generation failed: " ++ jsOrDefault r.errorText "Unknown error"), 1, 0, []⟩) := by
  have h' : ¬ t < elapsed := Nat.not_lt.2 h
  constructor
  · intro r hr
    exact pollLoop_eq_moderation t p m _ rest elapsed retries _ h'
      (classifyFetch_contentModerated r hr) isModeration_contentModerated
  · intro r hr hcase
    cases hm : isModerationMsg ("Generation failed: " ++ jsOrDefault r.errorText "Unknown error") with
    | true =>
      exact pollLoop_eq_moderation t p m _ rest elapsed retries _ h' (classifyFetch_error r hr) hm
    | false =>
      rcases hcase with hf | hf
      · exact pollLoop_eq_fatal t p m _ rest elapsed retries _ h' (classifyFetch_error r hr) hm
          (Or.inl hf)
      · simp [hm] at hf

/-- Witness for C1: a Content Moderated status and an Error status with a
non-transient failure reason each stop after exactly one fetch. -/
theorem waitForResult_terminal_status_witness :
    pollLoop 300 2 3 [.success ⟨"Content Moderated", none, none⟩,
        .success ⟨"Ready", some "u", none⟩] 0 0 =
      ⟨.fatal "Content was moderated. Please revise your prompt.", 1, 0, []⟩ ∧
    pollLoop 300 2 3 [.success ⟨"Error", none, some "model blew up"⟩,
        .success ⟨"Ready", some "u", none⟩] 0 0 =
      ⟨.fatal "Generation failed: model blew up", 1, 0, []⟩ :=
  ⟨(waitForResult_terminal_status 300 2 3 0 0 _ (by decide)).1 _ rfl,
   by
     have h := (waitForResult_terminal_status 300 2 3 0 0
         [.success ⟨"Ready", some "u", none⟩] (by decide)).2
         ⟨"Error", none, some "model blew up"⟩ rfl (Or.inl (by decide))
     exact h.trans (by decide)⟩

theorem pollLoop_transient_exhaust (t p m : Nat) (msg : String) (rest : List FetchOutcome)
    (ht : isTransientMsg msg = true) (hm : isModerationMsg msg = false) :
    ∀ (n retries elapsed : Nat), retries + n = m →
      elapsed + 2 ^ (m + 1) ≤ t + 2 ^ (retries + 1) →
      (pollLoop t p m (List.replicate (n + 1) (.failure msg) ++ rest) elapsed retries).outcome
          = .fatal msg
      ∧ (pollLoop t p m (List.replicate (n + 1) (.failure msg) ++ rest) elapsed retries).fetches
          = n + 1 := by
  intro n
  induction n with
  | zero =>
    intro retries elapsed hsum hT
    have hrm : retries = m := by omega
    rw [hrm] at hT
    have hle : ¬ t < elapsed := Nat.not_lt.2 (by omega)
    rw [List.replicate_succ, List.replicate_zero, List.singleton_append,
      pollLoop_eq_fatal t p m (.failure msg) rest elapsed retries msg hle rfl hm
        (Or.inr (by omega))]
    exact ⟨rfl, rfl⟩
  | succ k ih =>
    intro retries elapsed hsum hT
    have hrlt : retries < m := by omega
    have hple : (2:ℕ) ^ (retries + 1) ≤ 2 ^ (m + 1) :=
      Nat.pow_le_pow_right (by norm_num) (by omega)
    have hle : ¬ t < elapsed := Nat.not_lt.2 (by omega)
    rw [List.replicate_succ, List.cons_append,
      pollLoop_eq_retry t p m (.failure msg) _ elapsed retries msg hle rfl hm ht hrlt]
    have h2 : (2:ℕ) ^ (retries + 1 + 1) = 2 ^ (retries + 1) + 2 ^ (retries + 1) := by ring
    have hrec := ih (retries + 1) (elapsed + 2 ^ (retries + 1)) (by omega) (by omega)
    exact ⟨hrec.1, by simp [hrec.2]⟩

/-- Claim C2: a transient fetch failure (502/503/connection-reset/timeout
text) with retries left bumps the consecutive-failure counter, sleeps
`2 ^ (retries + 1)` seconds (2s, 4s, 8s, ... on the 1st, 2nd, 3rd
consecutive failure), and re-enters the loop at the timeout check with no
poll-interval sleep added; permanently failing transient fetches perform
exactly `1 + maxRetries` attempts and then propagate the underlying
error; and a 503-then-502-then-Ready trace yields exactly 3 fetches and
the Ready result. -/
theorem waitForResult_transient_backoff (t p m : Nat) :
    (∀ (msg : String) (rest : List FetchOutcome) (elapsed retries : Nat),
        elapsed ≤ t → isTransientMsg msg = true → isModerationMsg msg = false →
        retries < m →
        pollLoop t p m (.failure msg :: rest) elapsed retries =
          { pollLoop t p m rest (elapsed + 2 ^ (retries + 1)) (retries + 1) with
              fetches :=
                (pollLoop t p m rest (elapsed + 2 ^ (retries + 1)) (retries + 1)).fetches + 1,
              backoffs := 2 ^ (retries + 1) ::
                (pollLoop t p m rest (elapsed + 2 ^ (retries + 1)) (retries + 1)).backoffs })
    ∧ (∀ (msg : String) (rest : List FetchOutcome) (elapsed : Nat),
        isTransientMsg msg = true → isModerationMsg msg = false →
        elapsed + 2 ^ (m + 1) ≤ t + 2 →
        (pollLoop t p m (List.replicate (m + 1) (.failure msg) ++ rest) elapsed 0).outcome
            = .fatal msg
        ∧ (pollLoop t p m (List.replicate (m + 1) (.failure msg) ++ rest) elapsed 0).fetches
            = m + 1)
    ∧ pollLoop 300 2 2
        [.failure "Service temporarily unavailable (503). Please retry.",
         .failure "Service temporarily unavailable (502). Please retry.",
         .success ⟨"Ready", some "https://img", none⟩] 0 0 =
      ⟨.ready ⟨"Ready", some "https://img", none⟩, 3, 0, [2, 4]⟩ := by
  refine ⟨?_, ?_, by decide⟩
  · intro msg rest elapsed retries h ht hm hr
    exact pollLoop_eq_retry t p m (.failure msg) rest elapsed retries msg (Nat.not_lt.2 h)
      rfl hm ht hr
  · intro msg rest elapsed ht hm hT
    exact pollLoop_transient_exhaust t p m msg rest ht hm m 0 elapsed (by omega)
      (by simpa using hT)

/-- Witness for C2 with `maxRetries = 2`: three permanently failing
transient fetches propagate the error after exactly 3 attempts, and a
single transient failure at elapsed 5s backs off 2 seconds with no
poll-interval sleep. -/
theorem waitForResult_transient_backoff_witness :
    ((pollLoop 300 2 2 (List.replicate 3 (.failure "ECONNRESET") ++ []) 0 0).outcome =
        .fatal "ECONNRESET"
      ∧ (pollLoop 300 2 2 (List.replicate 3 (.failure "ECONNRESET") ++ []) 0 0).fetches = 3) ∧
    pollLoop 300 2 2 [.failure "ECONNRESET"] 5 0 = ⟨.outOfTrace, 1, 0, [2]⟩ :=
  ⟨(waitForResult_transient_backoff 300 2 2).2.1 "ECONNRESET" [] 0 (by decide) (by decide)
      (by decide),
   ((waitForResult_transient_backoff 300 2 2).1 "ECONNRESET" [] 5 0 (by decide) (by decide)
      (by decide) (by decide)).trans (by decide)⟩

/-- Claim C8: a trace of N keep-waiting responses (`Pending` or
`Request Moderated`) followed by `Ready` makes `waitForResult` perform
exactly N+1 fetches and exactly N poll-interval sleeps (so no more than
N), with no backoff sleeps, returning the Ready task; the retry counter
is reset by every successful poll, which the arbitrary incoming
`retries` value and the final `Ready` return reflect.  In particular a
`Request Moderated` response never terminates polling. -/
theorem waitForResult_keepWaiting_then_ready (t p m : Nat) :
    ∀ (tasks : List TaskResult) (r : TaskResult) (rest : List FetchOutcome)
      (elapsed retries : Nat),
      (∀ x ∈ tasks, x.status = "Pending" ∨ x.status = "Request Moderated") →
      r.status = "Ready" →
      elapsed + tasks.length * p ≤ t →
      pollLoop t p m (tasks.map .success ++ .success r :: rest) elapsed retries =
        ⟨.ready r, tasks.length + 1, tasks.length, []⟩ := by
  intro tasks
  induction tasks with
  | nil =>
    intro r rest elapsed retries _ hr ht
    have hle : ¬ t < elapsed := Nat.not_lt.2 (by omega)
    rw [List.map_nil, List.nil_append,
      pollLoop_eq_ready t p m (.success r) rest elapsed retries r hle (classifyFetch_ready r hr)]
    simp
  | cons x xs ih =>
    intro r rest elapsed retries hk hr ht
    have hx := hk x (List.mem_cons_self x xs)
    have hxs : ∀ y ∈ xs, y.status = "Pending" ∨ y.status = "Request Moderated" :=
      fun y hy => hk y (List.mem_cons_of_mem x hy)
    have hmul : (x :: xs).length * p = xs.length * p + p := by
      rw [List.length_cons, Nat.succ_mul]
    have hle : ¬ t < elapsed := Nat.not_lt.2 (by omega)
    rw [List.map_cons, List.cons_append,
      pollLoop_eq_keepPolling t p m (.success x) _ elapsed retries hle
        (classifyFetch_keepWaiting x hx),
      ih r rest (elapsed + p) 0 hxs hr (by omega)]
    simp [List.length_cons]

/-- Witness for C8: two keep-waiting responses (one of them
`Request Moderated`) then Ready give 3 fetches, 2 poll sleeps, no
backoffs, and the Ready task. -/
theorem waitForResult_keepWaiting_then_ready_witness :
    pollLoop 300 2 3
        ([(⟨"Pending", none, none⟩ : TaskResult),
          ⟨"Request Moderated", none, none⟩].map .success ++
          .success ⟨"Ready", some "https://img", none⟩ :: []) 0 0 =
      ⟨.ready ⟨"Ready", some "https://img", none⟩, 3, 2, []⟩ := by
  have h := waitForResult_keepWaiting_then_ready 300 2 3
    [⟨"Pending", none, none⟩, ⟨"Request Moderated", none, none⟩]
    ⟨"Ready", some "https://img", none⟩ [] 0 0
    (by intro x hx; fin_cases hx <;> simp) rfl (by decide)
  exact h.trans (by decide)

/-- Claim C3: a bracketed IPv4-mapped-IPv6 host `::ffff:a.b.c.d` (any
letter case) is unwrapped to its embedded IPv4 address before
classification, for every resolver (the DNS step is never consulted):
mapped loopback is rejected as localhost-style loopback, and mapped
RFC1918 / link-local addresses are rejected as private, shown both in
general and on the concrete bypass-vector URLs. -/
theorem validateImageUrl_ipv4_mapped_unwrap (resolver : String → ResolverResult) :
    (∀ (url host : String) (ip : Nat × Nat × Nat × Nat),
        parseUrl url = some ("https", host) →
        isBlockedHostname host = false →
        strStartsWith (strToLower host) "::ffff:" = true →
        parseIPv4 (strDrop (strToLower host) 7) = some ip →
        validateImageUrl resolver url =
          (match classifyIPv4 ip with
           | .loopback => .rejected .literalLoopback
           | .priv => .rejected .literalPrivate
           | .pub => .allowed url))
    ∧ validateImageUrl resolver "https://[::ffff:127.0.0.1]/x.jpg" = .rejected .literalLoopback
    ∧ validateImageUrl resolver "https://[::FFFF:127.0.0.1]/x.jpg" = .rejected .literalLoopback
    ∧ validateImageUrl resolver "https://[::ffff:10.0.0.1]/x.jpg" = .rejected .literalPrivate
    ∧ validateImageUrl resolver "https://[::ffff:169.254.169.254]/x.jpg" =
        .rejected .literalPrivate := by
  refine ⟨?_, rfl, rfl, rfl, rfl⟩
  intro url host ip hparse hblock hstarts hip
  have hcl : classifyHostLiteral host = some (classifyIPv4 ip) := by
    simp [classifyHostLiteral, hstarts, hip]
  rcases hC : classifyIPv4 ip with _ | _ | _ <;>
    simp [validateImageUrl, hparse, hblock, hcl, hC]

/-- Witness for C3: the general unwrap statement applied to the concrete
uppercase-mapped URL `https://[::FFFF:192.168.1.1]/x.jpg`. -/
theorem validateImageUrl_ipv4_mapped_unwrap_witness :
    validateImageUrl (fun _ => .ip "8.8.8.8") "https://[::FFFF:192.168.1.1]/x.jpg" =
      .rejected .literalPrivate := by
  have h := (validateImageUrl_ipv4_mapped_unwrap (fun _ => .ip "8.8.8.8")).1
    "https://[::FFFF:192.168.1.1]/x.jpg" "::FFFF:192.168.1.1" (192, 168, 1, 1)
    (by decide) (by decide) (by decide) (by decide)
  exact h.trans (by decide)

/-- Claim C4: for an https URL whose hostname is neither a literal IP nor
blocklisted, the verdict is computed from a fresh DNS resolution of that
hostname: a resolved private / loopback / link-local / unique-local /
metadata address is rejected as resolving to a private address, a public
resolved address is allowed, and the private-address test catches
exactly the spec's ranges on the listed concrete addresses. -/
theorem validateImageUrl_dns_rebinding_check :
    (∀ (resolver : String → ResolverResult) (url host : String),
        parseUrl url = some ("https", host) →
        isBlockedHostname host = false →
        classifyHostLiteral host = none →
        validateImageUrl resolver url =
          (match resolver host with
           | .ip addr =>
             if ipIsPrivateOrLoopback addr then .rejected .resolvesToPrivate
             else .allowed url
           | .errNotFound => .rejected .resolutionFailedNotFound
           | .errOther => .rejected .resolutionFailedOther))
    ∧ ipIsPrivateOrLoopback "127.0.0.1" = true
    ∧ ipIsPrivateOrLoopback "10.0.0.1" = true
    ∧ ipIsPrivateOrLoopback "192.168.1.1" = true
    ∧ ipIsPrivateOrLoopback "172.16.0.1" = true
    ∧ ipIsPrivateOrLoopback "169.254.169.254" = true
    ∧ ipIsPrivateOrLoopback "::1" = true
    ∧ ipIsPrivateOrLoopback "fe80::1" = true
    ∧ ipIsPrivateOrLoopback "fc00::1" = true
    ∧ ipIsPrivateOrLoopback "8.8.8.8" = false
    ∧ validateImageUrl (fun _ => .ip "8.8.8.8") "https://example.com/image.jpg" =
        .allowed "https://example.com/image.jpg"
    ∧ validateImageUrl (fun _ => .ip "127.0.0.1") "https://evil.com/image.jpg" =
        .rejected .resolvesToPrivate := by
  refine ⟨?_, by decide, by decide, by decide, by decide, by decide, by decide, by decide,
    by decide, by decide, by decide, by decide⟩
  intro resolver url host hparse hblock hlit
  rcases hres : resolver host with addr | _ | _ <;>
    simp [validateImageUrl, hparse, hblock, hlit, hres]

/-- Witness for C4: the general rebinding statement applied to
`https://evil.com/image.jpg` with a resolver returning the link-local
metadata address `169.254.169.254`. -/
theorem validateImageUrl_dns_rebinding_check_witness :
    validateImageUrl (fun _ => .ip "169.254.169.254") "https://evil.com/image.jpg" =
      .rejected .resolvesToPrivate := by
  have h := validateImageUrl_dns_rebinding_check.1 (fun _ => .ip "169.254.169.254")
    "https://evil.com/image.jpg" "evil.com" (by decide) (by decide) (by decide)
  exact h.trans (by decide)

/-- Counterexample to claim C5 as stated: when a `pollingUrl` is supplied,
`getResult` does not go through the `_makeRequest` facade — the direct
axios call carries no 30-second timeout and no redirect bound, so the
resulting request configuration differs from the facade's. -/
theorem getResult_pollingUrl_bypasses_facade_counterexample :
    (getResultConfig BASE_URL "test-api-key-123" "abc123"
        (some "https://api.eu2.bfl.ai/v1/get_result?id=abc123")).timeoutMs = none ∧
    (getResultConfig BASE_URL "test-api-key-123" "abc123"
        (some "https://api.eu2.bfl.ai/v1/get_result?id=abc123")).maxRedirects = none ∧
    getResultConfig BASE_URL "test-api-key-123" "abc123"
        (some "https://api.eu2.bfl.ai/v1/get_result?id=abc123") ≠
      makeRequestConfig BASE_URL "/v1/get_result?id=abc123" "test-api-key-123" :=
  ⟨rfl, rfl, by decide⟩

/-- Claim C5 (amended): a status fetch goes through the Request Facade
(`_makeRequest` GET with the authentication header, the fixed 30-second
timeout, and the 5-redirect bound) exactly when no `pollingUrl` is
supplied and the status URL is constructed from the taskId; with a
`pollingUrl`, `getResult` issues the GET directly to that URL attaching
only the accept and authentication headers, with no explicit timeout or
redirect bound. -/
theorem getResult_request_config (baseUrl apiKey taskId pollingUrl : String) :
    getResultConfig baseUrl apiKey taskId none =
        makeRequestConfig baseUrl ("/v1/get_result?id=" ++ taskId) apiKey
    ∧ (getResultConfig baseUrl apiKey taskId none).timeoutMs = some 30000
    ∧ (getResultConfig baseUrl apiKey taskId none).maxRedirects = some 5
    ∧ (getResultConfig baseUrl apiKey taskId none).headers.xKey = apiKey
    ∧ getResultConfig baseUrl apiKey taskId (some pollingUrl) =
        ⟨pollingUrl, ⟨"application/json", apiKey, none⟩, none, none⟩ :=
  ⟨rfl, rfl, rfl, rfl, rfl⟩

/-- Claim C9: in every log line the API key appears only in redacted
form: a key of length at least 8 is logged as the fixed marker `xxx...`
followed by exactly its last 4 characters, a shorter key is logged as the
constant `[REDACTED]`, the logged value for short keys is independent of
the key and for long keys depends only on the last 4 characters (so no
other character of the secret reaches the log), and the sanitized
request headers carry the redacted value in place of the key. -/
theorem redactApiKey_spec (k : String) :
    (8 ≤ k.length →
        redactApiKey k = "xxx..." ++ String.mk (k.data.drop (k.length - 4)))
    ∧ (k.length < 8 → redactApiKey k = "[REDACTED]")
    ∧ (∀ k' : String, k.length < 8 → k'.length < 8 → redactApiKey k = redactApiKey k')
    ∧ (∀ k' : String, 8 ≤ k.length → 8 ≤ k'.length →
        k.data.drop (k.length - 4) = k'.data.drop (k'.length - 4) →
        redactApiKey k = redactApiKey k')
    ∧ (sanitizedRequestHeaders k).xKey = redactApiKey k := by
  refine ⟨?_, ?_, ?_, ?_, rfl⟩
  · intro h
    rw [redactApiKey, if_neg (Nat.not_lt.2 h)]
  · intro h
    rw [redactApiKey, if_pos h]
  · intro k' h h'
    rw [redactApiKey, if_pos h, redactApiKey, if_pos h']
  · intro k' h h' hdrop
    rw [redactApiKey, if_neg (Nat.not_lt.2 h), redactApiKey, if_neg (Nat.not_lt.2 h'), hdrop]

/-- Witness for C9: a 16-character key is logged as `xxx...` plus its
last 4 characters; 5- and 4-character keys are both logged as the same
constant `[REDACTED]`; two long keys sharing their last 4 characters log
identically. -/
theorem redactApiKey_spec_witness :
    redactApiKey "test-api-key-123" = "xxx...-123" ∧
    redactApiKey "short" = "[REDACTED]" ∧
    redactApiKey "short" = redactApiKey "tiny" ∧
    redactApiKey "aaaa-key-1234" = redactApiKey "bbbbbbb-key-1234" :=
  ⟨((redactApiKey_spec "test-api-key-123").1 (by decide)).trans (by decide),
   (redactApiKey_spec "short").2.1 (by decide),
   (redactApiKey_spec "short").2.2.1 "tiny" (by decide) (by decide),
   (redactApiKey_spec "aaaa-key-1234").2.2.2.1 "bbbbbbb-key-1234" (by decide) (by decide)
     (by decide)⟩

/-- Claim C10: a non-empty constructor `baseUrl` that does not start with
`https://` makes construction fail with the HTTPS error before any
request can be issued; the default `BASE_URL` passes the check, and the
empty string bypasses it entirely (JavaScript falsiness). -/
theorem constructor_baseUrl_check (b : String) :
    (b ≠ "" → strStartsWith b "https://" = false →
        validateConstructorBaseUrl b =
          .error "API base URL must use HTTPS protocol for security")
    ∧ validateConstructorBaseUrl BASE_URL = .ok ()
    ∧ validateConstructorBaseUrl "" = .ok () := by
  refine ⟨?_, rfl, rfl⟩
  intro hne hsw
  rw [validateConstructorBaseUrl, if_pos ⟨hne, by simp [hsw]⟩]

/-- Witness for C10: an `http://` base URL is rejected at construction. -/
theorem constructor_baseUrl_check_witness :
    validateConstructorBaseUrl "http://api.bfl.ai" =
      .error "API base URL must use HTTPS protocol for security" :=
  (constructor_baseUrl_check "http://api.bfl.ai").1 (by decide) (by decide)
